import Mathlib

/-!
Shallow embedding of the multi-site scraper core (src/scraper.js): the
result cache (getCacheKey, getFromCache, setCache, clearCache), the
in-page extraction performed by search (title/price text, image src with
data-src fallback, link resolution, product-code inference, the
title-and-price filter), the assembly and caching of a SearchResult, the
failure wrapping and page-context release, and the getProductDetails
extraction including getAllImages.

The browser driver (navigation, DOM querying) is an opaque capability: a
page is modelled by the data the in-page extraction functions would read
from it (the trimmed textContent and attribute values per selector, in
document order), and driver faults (navigation or evaluation failures,
selector-wait timeouts) are modelled as explicit outcomes. Times are
integers (milliseconds, as Date.now()), and JavaScript string truthiness
(null and the empty string are falsy) is modelled explicitly.
-/

namespace MultiSiteScraper

/-- JavaScript truthiness of a nullable string: null and the empty string
are falsy, every other string is truthy. -/
def jsTruthy : Option String → Bool
  | none => false
  | some s => !s.data.isEmpty

/-- A character matched by the regex character class [A-Z0-9] under the
case-insensitive flag: an ASCII letter or digit. -/
def isCode (c : Char) : Bool :=
  (('A' ≤ c && c ≤ 'Z') || ('a' ≤ c && c ≤ 'z') || ('0' ≤ c && c ≤ '9'))

/-- The maximal run of [A-Z0-9] (case-insensitive) characters at the head
of the list: the greedy capture of ([A-Z0-9]+) after its anchor matched. -/
def takeCode : List Char → List Char
  | [] => []
  | c :: cs => if isCode c then c :: takeCode cs else []

/-- JavaScript regex match of /\/p([A-Z0-9]+)/i : scan left to right for
the first position where a slash, then p or P, then at least one
alphanumeric occur; return the greedy capture group. -/
def matchSlashP : List Char → Option (List Char)
  | '/' :: c :: d :: cs =>
      if (c = 'p' || c = 'P') && isCode d then some (d :: takeCode cs)
      else matchSlashP (c :: d :: cs)
  | _ :: cs => matchSlashP cs
  | [] => none

/-- Whether the regex product[\/\-]([A-Z0-9]+) with the i flag matches at
the head of the list; if so, the capture group. -/
def matchProductAt : List Char → Option (List Char)
  | p :: r :: o :: d :: u :: c :: t :: sep :: a :: rest =>
      if (p = 'p' || p = 'P') && (r = 'r' || r = 'R') && (o = 'o' || o = 'O') &&
         (d = 'd' || d = 'D') && (u = 'u' || u = 'U') && (c = 'c' || c = 'C') &&
         (t = 't' || t = 'T') && (sep = '/' || sep = '-') && isCode a
      then some (a :: takeCode rest)
      else none
  | _ => none

/-- JavaScript regex match of /product[\/\-]([A-Z0-9]+)/i : first position
where the pattern matches, greedy capture group. -/
def matchProduct : List Char → Option (List Char)
  | [] => none
  | c :: cs =>
      match matchProductAt (c :: cs) with
      | some r => some r
      | none => matchProduct cs

/-- pat.isPrefixOf applied at every suffix: JavaScript
String.prototype.includes (substring containment). -/
def listIncludes (pat : List Char) : List Char → Bool
  | [] => pat.isEmpty
  | c :: cs => pat.isPrefixOf (c :: cs) || listIncludes pat cs

/-- s.includes(pat) on strings. -/
def strIncludes (s pat : String) : Bool :=
  listIncludes pat.data s.data

/-- s.startsWith(pat) on strings. -/
def strStarts (s pat : String) : Bool :=
  pat.data.isPrefixOf s.data

/-- Product-code inference of search, lines 133-137 of scraper.js:
if the (resolved) link is truthy, try link.match(/\/p([A-Z0-9]+)/i), then
link.match(/product[\/\-]([A-Z0-9]+)/i); the first match wins and its
capture group is the product code; otherwise null. -/
def inferProductCode (link : Option String) : Option String :=
  match link with
  | none => none
  | some l =>
      if l.data.isEmpty then none
      else
        match matchSlashP l.data with
        | some cs => some (String.mk cs)
        | none =>
            match matchProduct l.data with
            | some cs => some (String.mk cs)
            | none => none

/-- Image extraction of search, lines 117-120 of scraper.js: read the src
attribute; if it is falsy (absent or empty) or contains the substring
"data:image", re-read the data-src attribute instead. -/
def extractImage (src dataSrc : Option String) : Option String :=
  if !(jsTruthy src) || strIncludes (src.getD "") "data:image" then dataSrc
  else src

/-- Link resolution of search, lines 123-126 of scraper.js: read the href
attribute; if it is truthy and does not start with "http", prefix the
current page origin. -/
def resolveLink (origin : String) (href : Option String) : Option String :=
  match href with
  | none => none
  | some l =>
      if !l.data.isEmpty && !(strStarts l "http") then some (origin ++ l)
      else some l

/-- The selector set of a SiteConfig (scraper.js search doc block):
productCard, title, price, image, link required; brand and rating
optional (absent or, per JavaScript truthiness, empty means unused). -/
structure SelectorSet where
  productCard : String
  title : String
  price : String
  image : String
  link : String
  brand : Option String
  rating : Option String
deriving Repr, DecidableEq

/-- A SiteConfig as consumed by search: name, searchUrl template,
selectors. -/
structure SiteConfig where
  name : String
  searchUrl : String
  selectors : SelectorSet
deriving Repr, DecidableEq

/-- One product record as assembled inside the page evaluation of search
(lines 139-147 of scraper.js). -/
structure ProductSummary where
  productCode : Option String
  title : Option String
  brand : Option String
  price : Option String
  rating : Option String
  image : Option String
  url : Option String
deriving Repr, DecidableEq

/-- The SearchResult assembled by search (lines 151-159 of scraper.js).
page is the requested page number, timestamp the ISO string taken at
assembly time. -/
structure SearchResult where
  site : String
  query : String
  page : Nat
  totalResults : Nat
  results : List ProductSummary
  cached : Bool
  timestamp : String
deriving Repr, DecidableEq

/-- A cache entry as stored by setCache: the data plus the Date.now()
instant at store time (field name timestamp as in scraper.js line 48). -/
structure CacheEntry where
  data : SearchResult
  timestamp : Int
deriving Repr, DecidableEq

/-- The in-memory cache Map, modelled extensionally by the lookup
function. -/
def Cache : Type := String → Option CacheEntry

/-- this.cache = new Map() of the constructor: the empty cache. -/
def emptyCache : Cache := fun _ => none

/-- this.cache.delete(key). -/
def cacheDelete (c : Cache) (key : String) : Cache :=
  fun k => if k = key then none else c k

/-- this.cache.set(key, e). -/
def cacheSet (c : Cache) (key : String) (e : CacheEntry) : Cache :=
  fun k => if k = key then some e else c k

/-- this.cacheTimeout = 60 * 60 * 1000 (one hour in milliseconds). -/
def cacheTimeout : Int := 60 * 60 * 1000

/-- getCacheKey (scraper.js lines 32-34): the template string
name:query:page. -/
def getCacheKey (siteConfig : SiteConfig) (query : String) (page : Nat) : String :=
  siteConfig.name ++ ":" ++ query ++ ":" ++ toString page

/-- getFromCache (scraper.js lines 36-43), with Date.now() passed as now:
if an entry exists and now minus its timestamp is below cacheTimeout,
return its data and leave the map untouched; otherwise delete the key
(a no-op when absent) and return null. Returns the value and the map
after the call. -/
def getFromCache (c : Cache) (now : Int) (key : String) :
    Option SearchResult × Cache :=
  match c key with
  | some cached =>
      if now - cached.timestamp < cacheTimeout then (some cached.data, c)
      else (none, cacheDelete c key)
  | none => (none, cacheDelete c key)

/-- setCache (scraper.js lines 45-50): unconditionally store the data
under the key with a fresh Date.now() stamp. -/
def setCache (c : Cache) (now : Int) (key : String) (data : SearchResult) : Cache :=
  cacheSet c key { data := data, timestamp := now }

/-- clearCache (scraper.js lines 52-54). -/
def clearCache (_ : Cache) : Cache := emptyCache

/-- What the in-page extraction reads from one element matching the
productCard selector: for each sub-selector, the value getTextContent or
getAttribute would return (none when no element matches; text is the
trimmed textContent). The DOM itself is opaque; this is the data-in
interface of the evaluate closure. -/
structure Card where
  titleText : Option String
  priceText : Option String
  imageSrc : Option String
  imageDataSrc : Option String
  linkHref : Option String
  brandText : Option String
  ratingText : Option String
deriving Repr, DecidableEq

/-- The page as seen by the in-page evaluation of search:
window.location.origin and the elements matching the productCard
selector, in document order. -/
structure PageEnv where
  origin : String
  cards : List Card
deriving Repr, DecidableEq

/-- The per-card body of the evaluate closure of search (scraper.js
lines 102-147): extract title and price text, image with data-src
fallback, href resolved against the origin, optional brand and rating,
and the product code inferred from the resolved link. -/
def extractCard (selectors : SelectorSet) (origin : String) (card : Card) :
    ProductSummary :=
  let link := resolveLink origin card.linkHref
  { productCode := inferProductCode link
    title := card.titleText
    brand := if jsTruthy selectors.brand then card.brandText else none
    price := card.priceText
    rating := if jsTruthy selectors.rating then card.ratingText else none
    image := extractImage card.imageSrc card.imageDataSrc
    url := link }

/-- The full evaluate closure of search: map extractCard over the cards
in document order, then keep only products whose title and price are
both truthy (scraper.js line 148). -/
def extractProducts (selectors : SelectorSet) (env : PageEnv) :
    List ProductSummary :=
  (env.cards.map (extractCard selectors env.origin)).filter
    (fun p => jsTruthy p.title && jsTruthy p.price)

/-- What the browser driver does for one search request once a page
context is open: navigation or in-page evaluation may fail with a driver
message, or the page settles into a PageEnv. A PageEnv with no card
element makes waitForSelector time out (modelled below). -/
inductive PageOutcome where
  | navError (msg : String)
  | evalError (msg : String)
  | ok (env : PageEnv)
deriving Repr, DecidableEq

/-- The driver-produced cause text when waitForSelector times out because
no element matches the selector within its window. Its exact wording
comes from the driver and is opaque; only its shape matters here. -/
def waitForSelectorCause (selector : String) : String :=
  "Waiting for selector " ++ selector ++ " failed: timeout 15000ms exceeded"

/-- The error message wrapping of the catch block of search
(scraper.js line 168). -/
def scrapeFailMsg (siteName cause : String) : String :=
  "Failed to scrape " ++ siteName ++ ": " ++ cause

/-- Everything observable about one search call: the returned result or
thrown error, the cache after the call, and whether a page context was
opened and whether it was closed again (the finally block). -/
structure SearchResponse where
  outcome : Except String SearchResult
  cache : Cache
  pageOpened : Bool
  pageClosed : Bool

/-- search (scraper.js lines 72-172), with Date.now() passed as now, the
ISO timestamp string as nowIso, and the driver behaviour as pageOut.
Check the cache first: on a hit return the entry data with cached set to
true, touching neither browser nor cache. On a miss open a page context;
a navigation or evaluation fault, or a waitForSelector timeout because no
element matches the productCard selector, is wrapped as
"Failed to scrape name: cause" after the finally block closes the page.
Otherwise extract the products, assemble the SearchResult with
cached false, store it under the key, and return it. -/
def search (siteConfig : SiteConfig) (query : String) (page : Nat)
    (now : Int) (nowIso : String) (pageOut : PageOutcome) (c : Cache) :
    SearchResponse :=
  match getFromCache c now (getCacheKey siteConfig query page) with
  | (some cached, c2) =>
      { outcome := Except.ok { cached with cached := true }
        cache := c2
        pageOpened := false
        pageClosed := false }
  | (none, c2) =>
      match pageOut with
      | PageOutcome.navError msg =>
          { outcome := Except.error (scrapeFailMsg siteConfig.name msg)
            cache := c2
            pageOpened := true
            pageClosed := true }
      | PageOutcome.evalError msg =>
          { outcome := Except.error (scrapeFailMsg siteConfig.name msg)
            cache := c2
            pageOpened := true
            pageClosed := true }
      | PageOutcome.ok env =>
          if env.cards.isEmpty then
            { outcome := Except.error (scrapeFailMsg siteConfig.name
                (waitForSelectorCause siteConfig.selectors.productCard))
              cache := c2
              pageOpened := true
              pageClosed := true }
          else
            let products := extractProducts siteConfig.selectors env
            let result : SearchResult :=
              { site := siteConfig.name
                query := query
                page := page
                totalResults := products.length
                results := products
                cached := false
                timestamp := nowIso }
            { outcome := Except.ok result
              cache := setCache c2 now (getCacheKey siteConfig query page) result
              pageOpened := true
              pageClosed := true }

/-- The DetailSelectorSet of getProductDetails: title and price required,
the rest optional. -/
structure DetailSelectorSet where
  title : String
  price : String
  description : Option String
  brand : Option String
  rating : Option String
  images : Option String
  availability : Option String
deriving Repr, DecidableEq

/-- One element matched by the images selector, as read by getAllImages:
src is the resolved src property (none models an element whose property
is the empty string because the attribute is absent), dataSrc the
data-src attribute. -/
structure ImgEl where
  src : Option String
  dataSrc : Option String
deriving Repr, DecidableEq

/-- img.src || img.getAttribute(data-src) for one element (scraper.js
line 204): the src property when truthy, else the data-src attribute. -/
def resolveImgSrc (e : ImgEl) : Option String :=
  if jsTruthy e.src then e.src else e.dataSrc

/-- JavaScript Array.prototype.filter(Boolean) over nullable strings:
keep the truthy values, in order. -/
def jsFilterTruthy (l : List (Option String)) : List String :=
  l.filterMap (fun o => if jsTruthy o then o else none)

/-- getAllImages (scraper.js lines 202-205): map each matched element to
its resolved source and drop the falsy ones, preserving document
order. -/
def getAllImages (imgs : List ImgEl) : List String :=
  jsFilterTruthy (imgs.map resolveImgSrc)

/-- The product detail page as seen by the evaluate closure of
getProductDetails: per selector, the value getTextContent would return,
and the elements the images selector matches in document order. -/
structure DetailPage where
  titleText : Option String
  priceText : Option String
  descriptionText : Option String
  brandText : Option String
  ratingText : Option String
  availabilityText : Option String
  imgs : List ImgEl
deriving Repr, DecidableEq

/-- The ProductDetail assembled by getProductDetails (scraper.js
lines 207-223). -/
structure ProductDetail where
  site : String
  url : String
  title : Option String
  price : Option String
  description : Option String
  brand : Option String
  rating : Option String
  images : List String
  availability : Option String
  timestamp : String
deriving Repr, DecidableEq

/-- The error message wrapping of the catch block of getProductDetails
(scraper.js line 227). -/
def detailFailMsg (cause : String) : String :=
  "Failed to get product details: " ++ cause

/-- Driver behaviour for one getProductDetails call: a navigation or
evaluation fault, or the settled detail page. -/
inductive DetailOutcome where
  | navError (msg : String)
  | evalError (msg : String)
  | ok (page : DetailPage)
deriving Repr, DecidableEq

/-- Everything observable about one getProductDetails call. -/
structure DetailResponse where
  outcome : Except String ProductDetail
  pageOpened : Bool
  pageClosed : Bool

/-- getProductDetails (scraper.js lines 180-231): no cache. On success,
each optional field is extracted only when its selector is truthy
(otherwise null, and images defaults to the empty sequence); images
collects getAllImages over the images selector. Faults are wrapped as
"Failed to get product details: cause"; the finally block closes the
page on every path. -/
def getProductDetails (siteConfig : SiteConfig) (productUrl : String)
    (detailSelectors : DetailSelectorSet) (nowIso : String)
    (pageOut : DetailOutcome) : DetailResponse :=
  match pageOut with
  | DetailOutcome.navError msg =>
      { outcome := Except.error (detailFailMsg msg)
        pageOpened := true
        pageClosed := true }
  | DetailOutcome.evalError msg =>
      { outcome := Except.error (detailFailMsg msg)
        pageOpened := true
        pageClosed := true }
  | DetailOutcome.ok page =>
      { outcome := Except.ok
          { site := siteConfig.name
            url := productUrl
            title := page.titleText
            price := page.priceText
            description :=
              if jsTruthy detailSelectors.description then page.descriptionText
              else none
            brand :=
              if jsTruthy detailSelectors.brand then page.brandText else none
            rating :=
              if jsTruthy detailSelectors.rating then page.ratingText else none
            images :=
              if jsTruthy detailSelectors.images then getAllImages page.imgs
              else []
            availability :=
              if jsTruthy detailSelectors.availability then
                page.availabilityText
              else none
            timestamp := nowIso }
        pageOpened := true
        pageClosed := true }

/-- The SearchResult invariant: totalResults counts results, and every
surfaced record has a non-null title and a non-null price. -/
def resultInv (r : SearchResult) : Prop :=
  r.totalResults = r.results.length ∧
  ∀ p ∈ r.results, p.title ≠ none ∧ p.price ≠ none

instance (r : SearchResult) : Decidable (resultInv r) := by
  unfold resultInv; infer_instance

/-- Every entry of the cache satisfies the SearchResult invariant. -/
def cacheInv (c : Cache) : Prop :=
  ∀ k e, c k = some e → resultInv e.data

/-- Modelled from the spec for comparison with the code (C8): the
condition under which the spec says the image falls back to data-src,
namely the src attribute is absent or is a placeholder data:image...
value. -/
def specImageFallbackCond : Option String → Bool
  | none => true
  | some s => strStarts s "data:image"

/-- A minimal selector set. -/
def demoSelectors : SelectorSet :=
  { productCard := ".card", title := ".t", price := ".p", image := "img",
    link := "a", brand := none, rating := none }

/-- The SiteConfig of the end-to-end scenario. -/
def acmeConfig : SiteConfig :=
  { name := "Acme", searchUrl := "https://acme.test/s?q={query}",
    selectors := demoSelectors }

/-- A card with both title and price (it qualifies). -/
def goodCard : Card :=
  { titleText := some "Drill", priceText := some "99.00",
    imageSrc := some "https://acme.test/i.jpg", imageDataSrc := none,
    linkHref := some "/p7X42AB", brandText := none, ratingText := none }

/-- A card with a title but no price (it is dropped). -/
def badCard : Card :=
  { titleText := some "OnlyTitle", priceText := none, imageSrc := none,
    imageDataSrc := none, linkHref := none, brandText := none,
    ratingText := none }

/-- A page with one qualifying and one non-qualifying card. -/
def demoEnv : PageEnv :=
  { origin := "https://acme.test", cards := [goodCard, badCard] }

/-- The SearchResult that the success path of search assembles
(scraper.js lines 151-159). -/
def assembledResult (siteConfig : SiteConfig) (query : String) (page : Nat)
    (nowIso : String) (env : PageEnv) : SearchResult :=
  { site := siteConfig.name
    query := query
    page := page
    totalResults := (extractProducts siteConfig.selectors env).length
    results := extractProducts siteConfig.selectors env
    cached := false
    timestamp := nowIso }

/-- A card whose resolved link ends in /product/AB12. -/
def productCard1 : Card :=
  { titleText := some "Widget", priceText := some "5.00",
    imageSrc := none, imageDataSrc := none,
    linkHref := some "https://shop.example/product/AB12",
    brandText := none, ratingText := none }

/-- A card whose resolved link ends in /p7X42AB. -/
def cardP : Card :=
  { titleText := some "Widget", priceText := some "5.00",
    imageSrc := none, imageDataSrc := none,
    linkHref := some "https://shop.example/p7X42AB",
    brandText := none, ratingText := none }

/-- A card whose resolved link is /shop/item (relative, so the origin is
prefixed), matching neither pattern. -/
def cardShop : Card :=
  { titleText := some "Widget", priceText := some "5.00",
    imageSrc := none, imageDataSrc := none,
    linkHref := some "/shop/item",
    brandText := none, ratingText := none }

/-- A card with no link element. -/
def cardNoLink : Card :=
  { titleText := some "Widget", priceText := some "5.00",
    imageSrc := none, imageDataSrc := none, linkHref := none,
    brandText := none, ratingText := none }

/-- A card whose link contains product-AB12 but no /p followed by an
alphanumeric, so the second pattern gets to run. -/
def cardQueryProduct : Card :=
  { titleText := some "Widget", priceText := some "5.00",
    imageSrc := none, imageDataSrc := none,
    linkHref := some "https://x.test?id=product-AB12",
    brandText := none, ratingText := none }

/-- A page with no element matching the productCard selector. -/
def emptyPageEnv : PageEnv :=
  { origin := "https://acme.test", cards := [] }

/-- A page whose only card lacks a price, so no card qualifies. -/
def onlyBadEnv : PageEnv :=
  { origin := "https://acme.test", cards := [badCard] }

/-- A SearchResult as a previous successful search would have stored it
(cached false). -/
def storedResult : SearchResult :=
  { site := "Acme", query := "drill", page := 1, totalResults := 0,
    results := [], cached := false, timestamp := "2026-01-01T00:00:00.000Z" }

/-- A cache holding storedResult under the Acme/drill/1 key, stored at
instant 0. -/
def primedCache : Cache :=
  cacheSet emptyCache (getCacheKey acmeConfig "drill" 1)
    { data := storedResult, timestamp := 0 }

/-- A card whose image src is a real URL that merely contains the
substring data:image, with a distinct data-src URL. -/
def trickyImageCard : Card :=
  { titleText := some "Widget", priceText := some "5.00",
    imageSrc := some "https://e.test/x?u=data:image",
    imageDataSrc := some "https://e.test/real.jpg",
    linkHref := none, brandText := none, ratingText := none }

/-- A site whose name contains the cache-key separator. -/
def colonConfigA : SiteConfig :=
  { name := "a:b", searchUrl := "https://a.test/s?q={query}",
    selectors := demoSelectors }

/-- A different site whose name is a prefix of the one above. -/
def colonConfigB : SiteConfig :=
  { name := "a", searchUrl := "https://b.test/s?q={query}",
    selectors := demoSelectors }

/-- A detail selector set supplying an images selector. -/
def detailSelectors1 : DetailSelectorSet :=
  { title := ".t", price := ".p", description := none, brand := none,
    rating := none, images := some ".imgs", availability := none }

/-- A detail page whose images selector matches three img elements: two
with a src and one with only a data-src. -/
def detailPage1 : DetailPage :=
  { titleText := some "Drill", priceText := some "99.00",
    descriptionText := none, brandText := none, ratingText := none,
    availabilityText := none,
    imgs := [{ src := some "https://d.test/1.jpg", dataSrc := none },
             { src := some "https://d.test/2.jpg", dataSrc := none },
             { src := none, dataSrc := some "https://d.test/3.jpg" }] }

theorem getFromCache_hit {c : Cache} {now : Int} {key : String}
    {entry : CacheEntry} (h : c key = some entry)
    (hf : now - entry.timestamp < cacheTimeout) :
    getFromCache c now key = (some entry.data, c) := by
  unfold getFromCache
  rw [h]
  simp [hf]

theorem getFromCache_stale {c : Cache} {now : Int} {key : String}
    {entry : CacheEntry} (h : c key = some entry)
    (hf : ¬ now - entry.timestamp < cacheTimeout) :
    getFromCache c now key = (none, cacheDelete c key) := by
  unfold getFromCache
  rw [h]
  simp [hf]

theorem getFromCache_absent {c : Cache} {now : Int} {key : String}
    (h : c key = none) :
    getFromCache c now key = (none, cacheDelete c key) := by
  unfold getFromCache
  rw [h]

theorem getFromCache_hit_inv {c c2 : Cache} {now : Int} {key : String}
    {r : SearchResult} (h : getFromCache c now key = (some r, c2)) :
    ∃ e, c key = some e ∧ e.data = r ∧ c2 = c := by
  unfold getFromCache at h
  cases hc : c key with
  | none => rw [hc] at h; simp at h
  | some e =>
      rw [hc] at h
      by_cases hf : now - e.timestamp < cacheTimeout
      · simp only [hf, if_true, Prod.mk.injEq, Option.some.injEq] at h
        exact ⟨e, rfl, h.1, h.2.symm⟩
      · simp [hf] at h

theorem getFromCache_miss_inv {c c2 : Cache} {now : Int} {key : String}
    (h : getFromCache c now key = (none, c2)) :
    c2 = cacheDelete c key := by
  unfold getFromCache at h
  cases hc : c key with
  | none => rw [hc] at h; simp only [Prod.mk.injEq] at h; exact h.2.symm
  | some e =>
      rw [hc] at h
      by_cases hf : now - e.timestamp < cacheTimeout
      · simp [hf] at h
      · simp only [hf, if_false, Prod.mk.injEq] at h
        exact h.2.symm

theorem search_hit {siteConfig : SiteConfig} {query : String} {page : Nat}
    {now : Int} {nowIso : String} {pageOut : PageOutcome} {c c2 : Cache}
    {r : SearchResult}
    (h : getFromCache c now (getCacheKey siteConfig query page) = (some r, c2)) :
    search siteConfig query page now nowIso pageOut c =
      { outcome := Except.ok { r with cached := true }, cache := c2,
        pageOpened := false, pageClosed := false } := by
  unfold search
  rw [h]

theorem search_navError {siteConfig : SiteConfig} {query : String}
    {page : Nat} {now : Int} {nowIso : String} {c c2 : Cache} {msg : String}
    (h : getFromCache c now (getCacheKey siteConfig query page) = (none, c2)) :
    search siteConfig query page now nowIso (PageOutcome.navError msg) c =
      { outcome := Except.error (scrapeFailMsg siteConfig.name msg),
        cache := c2, pageOpened := true, pageClosed := true } := by
  unfold search
  rw [h]

theorem search_evalError {siteConfig : SiteConfig} {query : String}
    {page : Nat} {now : Int} {nowIso : String} {c c2 : Cache} {msg : String}
    (h : getFromCache c now (getCacheKey siteConfig query page) = (none, c2)) :
    search siteConfig query page now nowIso (PageOutcome.evalError msg) c =
      { outcome := Except.error (scrapeFailMsg siteConfig.name msg),
        cache := c2, pageOpened := true, pageClosed := true } := by
  unfold search
  rw [h]

theorem search_noCards {siteConfig : SiteConfig} {query : String}
    {page : Nat} {now : Int} {nowIso : String} {c c2 : Cache} {env : PageEnv}
    (h : getFromCache c now (getCacheKey siteConfig query page) = (none, c2))
    (hempty : env.cards = []) :
    search siteConfig query page now nowIso (PageOutcome.ok env) c =
      { outcome := Except.error (scrapeFailMsg siteConfig.name
          (waitForSelectorCause siteConfig.selectors.productCard)),
        cache := c2, pageOpened := true, pageClosed := true } := by
  unfold search
  rw [h]
  simp [hempty]

theorem search_success {siteConfig : SiteConfig} {query : String}
    {page : Nat} {now : Int} {nowIso : String} {c c2 : Cache} {env : PageEnv}
    (h : getFromCache c now (getCacheKey siteConfig query page) = (none, c2))
    (hne : env.cards ≠ []) :
    search siteConfig query page now nowIso (PageOutcome.ok env) c =
      { outcome := Except.ok (assembledResult siteConfig query page nowIso env),
        cache := setCache c2 now (getCacheKey siteConfig query page)
          (assembledResult siteConfig query page nowIso env),
        pageOpened := true, pageClosed := true } := by
  unfold search
  rw [h]
  have he : env.cards.isEmpty = false := by
    cases hc : env.cards with
    | nil => exact absurd hc hne
    | cons a as => rfl
  simp [he, assembledResult]

theorem cacheSet_self {c : Cache} {key : String} {e : CacheEntry} :
    cacheSet c key e key = some e := by
  simp [cacheSet]

theorem cacheDelete_self {c : Cache} {key : String} :
    cacheDelete c key key = none := by
  simp [cacheDelete]

theorem data_isEmpty_false_of_ne {s : String} (h : s ≠ "") :
    s.data.isEmpty = false := by
  cases hd : s.data with
  | nil => exact absurd (String.ext (hd.trans rfl)) h
  | cons c cs => rfl

theorem jsTruthy_some {s : String} (h : s ≠ "") :
    jsTruthy (some s) = true := by
  simp [jsTruthy, data_isEmpty_false_of_ne h]

theorem jsTruthy_none : jsTruthy none = false := rfl

theorem strIncludes_of_strStarts {s pat : String}
    (h : strStarts s pat = true) : strIncludes s pat = true := by
  unfold strStarts at h
  unfold strIncludes
  cases hd : s.data with
  | nil =>
      rw [hd] at h
      cases hp : pat.data with
      | nil => simp [listIncludes, hp]
      | cons q qs => rw [hp] at h; simp [List.isPrefixOf] at h
  | cons c cs =>
      rw [hd] at h
      simp [listIncludes, h]

theorem resultInv_assembled (siteConfig : SiteConfig) (query : String)
    (page : Nat) (nowIso : String) (env : PageEnv) :
    resultInv (assembledResult siteConfig query page nowIso env) := by
  constructor
  · rfl
  · intro p hp
    have hmem := List.mem_filter.mp hp
    have hand : jsTruthy p.title = true ∧ jsTruthy p.price = true := by
      have h2 := hmem.2
      simp only [Bool.and_eq_true] at h2
      exact h2
    constructor
    · intro hnone
      rw [hnone] at hand
      exact Bool.false_ne_true hand.1
    · intro hnone
      rw [hnone] at hand
      exact Bool.false_ne_true hand.2

theorem cacheInv_empty : cacheInv emptyCache := by
  intro k e hk
  simp [emptyCache] at hk

theorem cacheInv_delete {c : Cache} {key : String} (h : cacheInv c) :
    cacheInv (cacheDelete c key) := by
  intro k e hk
  unfold cacheDelete at hk
  by_cases hkk : k = key
  · rw [if_pos hkk] at hk; cases hk
  · rw [if_neg hkk] at hk; exact h k e hk

theorem cacheInv_set {c : Cache} {key : String} {e : CacheEntry}
    (h : cacheInv c) (hr : resultInv e.data) : cacheInv (cacheSet c key e) := by
  intro k e2 hk
  unfold cacheSet at hk
  by_cases hkk : k = key
  · rw [if_pos hkk] at hk
    cases hk
    exact hr
  · rw [if_neg hkk] at hk; exact h k e2 hk

end MultiSiteScraper

open MultiSiteScraper

/-- C1 counterexample: the claim says a link ending in /product/AB12
yields productCode "AB12". On the code, the first regex
/\/p([A-Z0-9]+)/i already matches the substring "/product" of that link
(slash, p, then the alphanumeric run "roduct"), so the extracted
productCode is "roduct", not "AB12". -/
theorem C1_counterexample :
    (extractCard demoSelectors "https://shop.example" productCard1).productCode
      = some "roduct" ∧
    (extractCard demoSelectors "https://shop.example" productCard1).productCode
      ≠ some "AB12" := by
  constructor
  · rfl
  · decide

/-- C1 amended: product-code inference applies, in order, the pattern
/p<alphanumeric> and then product/<alphanumeric> or product-<alphanumeric>
(case-insensitive), first match wins, but each pattern matches its first
occurrence anywhere in the link, not an ending: a link whose first
/p<alphanumeric> occurrence is its trailing /p7X42AB yields "7X42AB"; a
link ending in /product/AB12 yields "roduct", because the first pattern
already matches at /product; a link containing product-AB12 but no
/p<alphanumeric> yields "AB12" through the second pattern; a link
/shop/item (matching neither pattern) or an absent link yields null. -/
theorem C1_amended :
    (extractCard demoSelectors "https://shop.example" cardP).productCode
      = some "7X42AB" ∧
    (extractCard demoSelectors "https://shop.example" productCard1).productCode
      = some "roduct" ∧
    (extractCard demoSelectors "https://x.test" cardQueryProduct).productCode
      = some "AB12" ∧
    (extractCard demoSelectors "https://shop.example" cardShop).productCode
      = none ∧
    (extractCard demoSelectors "https://shop.example" cardShop).url
      = some "https://shop.example/shop/item" ∧
    (extractCard demoSelectors "https://shop.example" cardNoLink).productCode
      = none :=
  ⟨rfl, rfl, rfl, rfl, rfl, rfl⟩

/-- C10: the cache key joins site name, query, and page with ":" and no
escaping, so key construction is not injective: site "a:b" with query "c"
and site "a" with query "b:c" at page 1 share the key "a:b:c:1", and a
result cached by a successful search for the first request is served as a
cache hit (cached true, site field still "a:b") for the second request,
even though its own driver interaction would have failed. -/
theorem C10_cache_key_collision :
    getCacheKey colonConfigA "c" 1 = getCacheKey colonConfigB "b:c" 1 ∧
    colonConfigA.name ≠ colonConfigB.name ∧
    ((search colonConfigB "b:c" 1 1000 "t2" (PageOutcome.navError "offline")
        (search colonConfigA "c" 1 0 "t1" (PageOutcome.ok demoEnv)
          emptyCache).cache).outcome.map (fun r => r.cached))
      = Except.ok true ∧
    ((search colonConfigB "b:c" 1 1000 "t2" (PageOutcome.navError "offline")
        (search colonConfigA "c" 1 0 "t1" (PageOutcome.ok demoEnv)
          emptyCache).cache).outcome.map (fun r => r.site))
      = Except.ok "a:b" := by
  refine ⟨rfl, by decide, rfl, rfl⟩

/-- C8 counterexample: the claim says the fallback to data-src happens
exactly when src is absent or is a placeholder data:image value. On the
code the test is a substring containment: for a card whose src is a real
URL that merely contains "data:image" in its query string (so the
spec-side condition is false), the extraction still falls back to the
data-src value. -/
theorem C8_counterexample :
    specImageFallbackCond trickyImageCard.imageSrc = false ∧
    (extractCard demoSelectors "https://e.test" trickyImageCard).image
      = some "https://e.test/real.jpg" ∧
    trickyImageCard.imageSrc ≠ some "https://e.test/real.jpg" := by
  refine ⟨rfl, rfl, by decide⟩

/-- C8 amended: image extraction reads the src attribute and falls back
to the data-src attribute exactly when src is absent, empty, or contains
the substring "data:image" anywhere (not only when it is a placeholder
value): in particular, when src starts with "data:image" (a placeholder)
and data-src is a URL, the extracted image is the data-src value; when
src is truthy and does not contain "data:image", the extracted image is
src itself. -/
theorem C8_amended :
    (∀ dataSrc : Option String, extractImage none dataSrc = dataSrc) ∧
    (∀ (s : String) (dataSrc : Option String), strStarts s "data:image" = true →
      extractImage (some s) dataSrc = dataSrc) ∧
    (∀ (s : String) (dataSrc : Option String), strIncludes s "data:image" = true →
      extractImage (some s) dataSrc = dataSrc) ∧
    (∀ (s : String) (dataSrc : Option String), s ≠ "" →
      strIncludes s "data:image" = false →
      extractImage (some s) dataSrc = some s) := by
  have hinc : ∀ (s : String) (dataSrc : Option String),
      strIncludes s "data:image" = true →
      extractImage (some s) dataSrc = dataSrc := by
    intro s dataSrc h
    unfold extractImage
    simp [h]
  refine ⟨fun dataSrc => rfl, ?_, hinc, ?_⟩
  · intro s dataSrc h
    exact hinc s dataSrc (strIncludes_of_strStarts h)
  · intro s dataSrc hne hninc
    unfold extractImage
    simp [jsTruthy, data_isEmpty_false_of_ne hne, hninc]

/-- C8 witness: the amended fallback behaviour at concrete inputs: a
placeholder src falls back to data-src, and a clean URL src is kept. -/
theorem C8_amended_witness :
    extractImage (some "data:image/gif;base64,R0lGOD")
      (some "https://e.test/real.jpg") = some "https://e.test/real.jpg" ∧
    extractImage (some "https://e.test/clean.jpg")
      (some "https://e.test/other.jpg") = some "https://e.test/clean.jpg" :=
  ⟨(C8_amended.2.1 "data:image/gif;base64,R0lGOD"
      (some "https://e.test/real.jpg") (by decide)),
   (C8_amended.2.2.2 "https://e.test/clean.jpg"
      (some "https://e.test/other.jpg") (by decide) (by decide))⟩

/-- C9: with an images selector supplied, getProductDetails collects every
matched element's resolved source (src, else data-src) in document order,
skipping elements yielding neither: three img elements, two with a
non-empty src and one with only a non-empty data-src, yield exactly their
three sources in document order. -/
theorem C9_detail_images :
    ∀ (siteConfig : SiteConfig) (productUrl : String)
      (detailSelectors : DetailSelectorSet) (nowIso : String)
      (page : DetailPage) (s1 s2 d3 : String) (dx1 dx2 : Option String),
      jsTruthy detailSelectors.images = true →
      page.imgs = [{ src := some s1, dataSrc := dx1 },
                   { src := some s2, dataSrc := dx2 },
                   { src := none, dataSrc := some d3 }] →
      s1 ≠ "" → s2 ≠ "" → d3 ≠ "" →
      ∃ pd, (getProductDetails siteConfig productUrl detailSelectors nowIso
              (DetailOutcome.ok page)).outcome = Except.ok pd ∧
        pd.images = [s1, s2, d3] ∧ pd.images.length = 3 := by
  intro siteConfig productUrl detailSelectors nowIso page s1 s2 d3 dx1 dx2
    hsel himgs h1 h2 h3
  refine ⟨_, rfl, ?_, ?_⟩ <;>
    simp [getProductDetails, hsel, himgs, getAllImages, jsFilterTruthy,
      resolveImgSrc, jsTruthy_none, jsTruthy_some h1, jsTruthy_some h2,
      jsTruthy_some h3]

/-- C9 witness: the three-image scenario at concrete inputs. -/
theorem C9_detail_images_witness :
    ∃ pd, (getProductDetails acmeConfig "https://acme.test/p7X42AB"
            detailSelectors1 "t1" (DetailOutcome.ok detailPage1)).outcome
          = Except.ok pd ∧
      pd.images = ["https://d.test/1.jpg", "https://d.test/2.jpg",
                   "https://d.test/3.jpg"] ∧
      pd.images.length = 3 :=
  C9_detail_images acmeConfig "https://acme.test/p7X42AB" detailSelectors1
    "t1" detailPage1 "https://d.test/1.jpg" "https://d.test/2.jpg"
    "https://d.test/3.jpg" none none rfl rfl (by decide) (by decide)
    (by decide)

/-- C2 counterexample: the claim asserts that every well-formed request
whose page has zero qualifying product cards yields a successful
SearchResult with totalResults 0. On a page with no element matching the
productCard selector at all (hence zero qualifying cards), waitForSelector
times out and search raises the wrapped scrape error instead. -/
theorem C2_counterexample :
    (search acmeConfig "drill" 1 0 "2026-01-01T00:00:00.000Z"
      (PageOutcome.ok emptyPageEnv) emptyCache).outcome =
    Except.error (scrapeFailMsg "Acme" (waitForSelectorCause ".card")) := rfl

/-- C2 amended: for every well-formed search request whose page contains
at least one element matching the productCard selector but zero cards
qualifying under the title-and-price filter, search returns a valid,
successful SearchResult with totalResults 0 and empty results rather than
raising an error; when no element matches the productCard selector at
all, the selector wait times out and search raises the wrapped scrape
error instead. -/
theorem C2_amended :
    ∀ (siteConfig : SiteConfig) (query : String) (page : Nat) (now : Int)
      (nowIso : String) (env : PageEnv) (c : Cache),
      (getFromCache c now (getCacheKey siteConfig query page)).1 = none →
      env.cards ≠ [] →
      extractProducts siteConfig.selectors env = [] →
      (search siteConfig query page now nowIso (PageOutcome.ok env) c).outcome =
        Except.ok { site := siteConfig.name, query := query, page := page,
                    totalResults := 0, results := [], cached := false,
                    timestamp := nowIso } := by
  intro siteConfig query page now nowIso env c hmiss hne hprods
  have hfull : getFromCache c now (getCacheKey siteConfig query page) =
      (none, (getFromCache c now (getCacheKey siteConfig query page)).2) := by
    rw [← hmiss]
  rw [search_success hfull hne]
  simp [assembledResult, hprods]

/-- C2 witness: a page whose only card lacks a price yields the empty
successful SearchResult. -/
theorem C2_amended_witness :
    (search acmeConfig "drill" 1 0 "t0" (PageOutcome.ok onlyBadEnv)
      emptyCache).outcome =
    Except.ok { site := "Acme", query := "drill", page := 1,
                totalResults := 0, results := [], cached := false,
                timestamp := "t0" } :=
  C2_amended acmeConfig "drill" 1 0 "t0" onlyBadEnv emptyCache rfl
    (by decide) rfl

/-- C3: a cache hit returns a SearchResult equal to the stored entry data
except that cached is set to true, and the read leaves the cache map
unchanged; conversely, the entry a successful search stores keeps
cached equal to false inside the store. -/
theorem C3_cache_entry_isolation :
    ∀ (siteConfig : SiteConfig) (query : String) (page : Nat) (now : Int)
      (nowIso : String) (pageOut : PageOutcome) (c : Cache),
      (∀ entry, c (getCacheKey siteConfig query page) = some entry →
        now - entry.timestamp < cacheTimeout →
        (search siteConfig query page now nowIso pageOut c).outcome =
          Except.ok { entry.data with cached := true } ∧
        (search siteConfig query page now nowIso pageOut c).cache = c) ∧
      (∀ env, pageOut = PageOutcome.ok env → env.cards ≠ [] →
        (getFromCache c now (getCacheKey siteConfig query page)).1 = none →
        (search siteConfig query page now nowIso pageOut c).cache
            (getCacheKey siteConfig query page) =
          some { data := assembledResult siteConfig query page nowIso env,
                 timestamp := now } ∧
        (assembledResult siteConfig query page nowIso env).cached = false) := by
  intro siteConfig query page now nowIso pageOut c
  constructor
  · intro entry hkey hfresh
    rw [search_hit (getFromCache_hit hkey hfresh)]
    exact ⟨rfl, rfl⟩
  · intro env hpo hne hmiss
    subst hpo
    have hfull : getFromCache c now (getCacheKey siteConfig query page) =
        (none, (getFromCache c now (getCacheKey siteConfig query page)).2) := by
      rw [← hmiss]
    rw [search_success hfull hne]
    exact ⟨cacheSet_self, rfl⟩

/-- C3 witness: a hit on a primed cache returns the stored data with
cached true and leaves the cache map untouched. -/
theorem C3_witness :
    (search acmeConfig "drill" 1 100 "t1" (PageOutcome.navError "boom")
      primedCache).outcome = Except.ok { storedResult with cached := true } ∧
    (search acmeConfig "drill" 1 100 "t1" (PageOutcome.navError "boom")
      primedCache).cache = primedCache :=
  (C3_cache_entry_isolation acmeConfig "drill" 1 100 "t1"
    (PageOutcome.navError "boom") primedCache).1
    { data := storedResult, timestamp := 0 } rfl (by decide)

/-- C4: assuming every cached entry already satisfies it, every
SearchResult returned by search has totalResults equal to
results.length and only elements with non-null title and non-null price,
and every cache state search leaves behind keeps satisfying it. -/
theorem C4_search_result_invariant :
    ∀ (siteConfig : SiteConfig) (query : String) (page : Nat) (now : Int)
      (nowIso : String) (pageOut : PageOutcome) (c : Cache),
      cacheInv c →
      (∀ r, (search siteConfig query page now nowIso pageOut c).outcome =
          Except.ok r → resultInv r) ∧
      cacheInv (search siteConfig query page now nowIso pageOut c).cache := by
  intro siteConfig query page now nowIso pageOut c hInv
  cases hv : (getFromCache c now (getCacheKey siteConfig query page)).1 with
  | some r =>
      have hfull : getFromCache c now (getCacheKey siteConfig query page) =
          (some r,
            (getFromCache c now (getCacheKey siteConfig query page)).2) := by
        rw [← hv]
      obtain ⟨e, hce, hed, hc2⟩ := getFromCache_hit_inv hfull
      rw [search_hit hfull]
      constructor
      · intro r2 hr2
        injection hr2 with hr2
        subst hr2
        have hinv_r : resultInv e.data := hInv _ e hce
        rw [hed] at hinv_r
        exact hinv_r
      · rw [hc2]
        exact hInv
  | none =>
      have hfull : getFromCache c now (getCacheKey siteConfig query page) =
          (none,
            (getFromCache c now (getCacheKey siteConfig query page)).2) := by
        rw [← hv]
      have hc2 := getFromCache_miss_inv hfull
      have hdelInv :
          cacheInv (getFromCache c now (getCacheKey siteConfig query page)).2 := by
        rw [hc2]
        exact cacheInv_delete hInv
      cases pageOut with
      | navError msg =>
          rw [search_navError hfull]
          exact ⟨fun r h => Except.noConfusion h, hdelInv⟩
      | evalError msg =>
          rw [search_evalError hfull]
          exact ⟨fun r h => Except.noConfusion h, hdelInv⟩
      | ok env =>
          by_cases hempty : env.cards = []
          · rw [search_noCards hfull hempty]
            exact ⟨fun r h => Except.noConfusion h, hdelInv⟩
          · rw [search_success hfull hempty]
            constructor
            · intro r h
              injection h with h
              subst h
              exact resultInv_assembled siteConfig query page nowIso env
            · exact cacheInv_set hdelInv
                (resultInv_assembled siteConfig query page nowIso env)

/-- C4 witness: the invariant holds for the concrete result of a search
over a page with one qualifying and one dropped card. -/
theorem C4_witness :
    resultInv
      { site := "Acme", query := "drill", page := 1, totalResults := 1,
        results := [{ productCode := some "7X42AB", title := some "Drill",
                      brand := none, price := some "99.00", rating := none,
                      image := some "https://acme.test/i.jpg",
                      url := some "https://acme.test/p7X42AB" }],
        cached := false, timestamp := "t1" } :=
  (C4_search_result_invariant acmeConfig "drill" 1 0 "t1"
    (PageOutcome.ok demoEnv) emptyCache cacheInv_empty).1 _ rfl

/-- C5: for any request whose key misses the cache, a successful search
returns a result with cached false, and an immediately repeated search
for the same (site, query, page) within the TTL returns a result with
cached true whose results sequence is identical — without touching the
driver (any driver behaviour, even a failure, yields the cached data). -/
theorem C5_repeat_search_cached :
    ∀ (siteConfig : SiteConfig) (query : String) (page : Nat)
      (now1 now2 : Int) (ts1 ts2 : String) (env : PageEnv)
      (out2 : PageOutcome) (c : Cache),
      (getFromCache c now1 (getCacheKey siteConfig query page)).1 = none →
      env.cards ≠ [] →
      now2 - now1 < cacheTimeout →
      ∃ r1 r2,
        (search siteConfig query page now1 ts1 (PageOutcome.ok env) c).outcome
          = Except.ok r1 ∧
        r1.cached = false ∧
        (search siteConfig query page now2 ts2 out2
          (search siteConfig query page now1 ts1
            (PageOutcome.ok env) c).cache).outcome = Except.ok r2 ∧
        r2.cached = true ∧
        r2.results = r1.results := by
  intro siteConfig query page now1 now2 ts1 ts2 env out2 c hmiss hne httl
  have hfull : getFromCache c now1 (getCacheKey siteConfig query page) =
      (none, (getFromCache c now1 (getCacheKey siteConfig query page)).2) := by
    rw [← hmiss]
  rw [search_success hfull hne]
  dsimp only
  have hkey :
      setCache (getFromCache c now1 (getCacheKey siteConfig query page)).2
        now1 (getCacheKey siteConfig query page)
        (assembledResult siteConfig query page ts1 env)
        (getCacheKey siteConfig query page) =
      some { data := assembledResult siteConfig query page ts1 env,
             timestamp := now1 } := cacheSet_self
  have hhit := getFromCache_hit hkey httl
  rw [search_hit hhit]
  exact ⟨assembledResult siteConfig query page ts1 env,
    { assembledResult siteConfig query page ts1 env with cached := true },
    rfl, rfl, rfl, rfl, rfl⟩

/-- C5 witness: the double call at concrete inputs yields cached false
then cached true. -/
theorem C5_witness :
    ((search acmeConfig "drill" 1 0 "t1" (PageOutcome.ok demoEnv)
        emptyCache).outcome.map (fun r => r.cached)) = Except.ok false ∧
    ((search acmeConfig "drill" 1 5 "t2" (PageOutcome.navError "offline")
        (search acmeConfig "drill" 1 0 "t1" (PageOutcome.ok demoEnv)
          emptyCache).cache).outcome.map (fun r => r.cached))
      = Except.ok true := by
  obtain ⟨r1, r2, h1, h2, h3, h4, h5⟩ :=
    C5_repeat_search_cached acmeConfig "drill" 1 0 5 "t1" "t2" demoEnv
      (PageOutcome.navError "offline") emptyCache rfl (by decide) (by decide)
  rw [h1, h3]
  simp [Except.map, h2, h4]

/-- C6: getFromCache returns the stored data and leaves the map alone
when the entry exists and now minus storedAt is strictly below the fixed
one-hour TTL; otherwise (stale entry or absent key) it removes the key
and signals absence, so after a stale read a second consecutive lookup
for that key also misses. -/
theorem C6_cache_get_semantics :
    ∀ (c : Cache) (key : String) (now now2 : Int),
      (∀ e, c key = some e → now - e.timestamp < cacheTimeout →
        getFromCache c now key = (some e.data, c)) ∧
      (∀ e, c key = some e → ¬ now - e.timestamp < cacheTimeout →
        (getFromCache c now key).1 = none ∧
        (getFromCache c now key).2 key = none ∧
        (getFromCache (getFromCache c now key).2 now2 key).1 = none) ∧
      (c key = none →
        (getFromCache c now key).1 = none ∧
        (getFromCache c now key).2 key = none) := by
  intro c key now now2
  refine ⟨fun e he hf => getFromCache_hit he hf, fun e he hf => ?_,
    fun he => ?_⟩
  · rw [getFromCache_stale he hf]
    refine ⟨rfl, cacheDelete_self, ?_⟩
    rw [getFromCache_absent cacheDelete_self]
  · rw [getFromCache_absent he]
    exact ⟨rfl, cacheDelete_self⟩

/-- C6 witness: reading the primed key exactly one TTL after it was
stored misses, removes the entry, and a second consecutive lookup also
misses. -/
theorem C6_witness :
    (getFromCache primedCache cacheTimeout
      (getCacheKey acmeConfig "drill" 1)).1 = none ∧
    (getFromCache primedCache cacheTimeout
      (getCacheKey acmeConfig "drill" 1)).2
      (getCacheKey acmeConfig "drill" 1) = none ∧
    (getFromCache
      (getFromCache primedCache cacheTimeout
        (getCacheKey acmeConfig "drill" 1)).2
      (cacheTimeout + 1) (getCacheKey acmeConfig "drill" 1)).1 = none :=
  ((C6_cache_get_semantics primedCache (getCacheKey acmeConfig "drill" 1)
    cacheTimeout (cacheTimeout + 1)).2.1)
    { data := storedResult, timestamp := 0 } rfl (by decide)

/-- C7 counterexample: the claim says a failed search leaves the cache
unchanged. When the key held an expired entry, the cache lookup that
precedes the failure removes that entry, so the cache after the failed
search differs from the cache before it. -/
theorem C7_counterexample :
    (search acmeConfig "drill" 1 cacheTimeout "t1"
      (PageOutcome.navError "net::ERR_FAILED") primedCache).outcome
      = Except.error "Failed to scrape Acme: net::ERR_FAILED" ∧
    primedCache (getCacheKey acmeConfig "drill" 1)
      = some { data := storedResult, timestamp := 0 } ∧
    (search acmeConfig "drill" 1 cacheTimeout "t1"
      (PageOutcome.navError "net::ERR_FAILED") primedCache).cache
      (getCacheKey acmeConfig "drill" 1) = none ∧
    (search acmeConfig "drill" 1 cacheTimeout "t1"
      (PageOutcome.navError "net::ERR_FAILED") primedCache).cache
      ≠ primedCache := by
  refine ⟨rfl, rfl, rfl, fun h => ?_⟩
  exact absurd (congrFun h (getCacheKey acmeConfig "drill" 1)) (by decide)

/-- C7 amended: any navigation, timeout, or in-page evaluation failure
during a search that missed the cache is surfaced as exactly one error
with message "Failed to scrape <site name>: <cause>", no result is
returned, the page context is released before the error propagates, and
the cache is exactly the cache the initial lookup left behind — in
particular no entry is created or modified for the failed request's key,
which maps to nothing afterwards; the only possible difference from the
pre-call cache is the lookup's own lazy removal of a stale entry. -/
theorem C7_failure_isolation_amended :
    ∀ (siteConfig : SiteConfig) (query : String) (page : Nat) (now : Int)
      (nowIso : String) (c : Cache),
      (getFromCache c now (getCacheKey siteConfig query page)).1 = none →
      (∀ msg,
        (search siteConfig query page now nowIso
          (PageOutcome.navError msg) c).outcome
          = Except.error (scrapeFailMsg siteConfig.name msg) ∧
        (search siteConfig query page now nowIso
          (PageOutcome.navError msg) c).pageClosed = true ∧
        (search siteConfig query page now nowIso
          (PageOutcome.navError msg) c).cache
          = (getFromCache c now (getCacheKey siteConfig query page)).2 ∧
        (search siteConfig query page now nowIso
          (PageOutcome.navError msg) c).cache
          (getCacheKey siteConfig query page) = none) ∧
      (∀ msg,
        (search siteConfig query page now nowIso
          (PageOutcome.evalError msg) c).outcome
          = Except.error (scrapeFailMsg siteConfig.name msg) ∧
        (search siteConfig query page now nowIso
          (PageOutcome.evalError msg) c).pageClosed = true ∧
        (search siteConfig query page now nowIso
          (PageOutcome.evalError msg) c).cache
          = (getFromCache c now (getCacheKey siteConfig query page)).2 ∧
        (search siteConfig query page now nowIso
          (PageOutcome.evalError msg) c).cache
          (getCacheKey siteConfig query page) = none) ∧
      (∀ env, env.cards = [] →
        (search siteConfig query page now nowIso
          (PageOutcome.ok env) c).outcome
          = Except.error (scrapeFailMsg siteConfig.name
              (waitForSelectorCause siteConfig.selectors.productCard)) ∧
        (search siteConfig query page now nowIso
          (PageOutcome.ok env) c).pageClosed = true ∧
        (search siteConfig query page now nowIso
          (PageOutcome.ok env) c).cache
          = (getFromCache c now (getCacheKey siteConfig query page)).2 ∧
        (search siteConfig query page now nowIso
          (PageOutcome.ok env) c).cache
          (getCacheKey siteConfig query page) = none) := by
  intro siteConfig query page now nowIso c hmiss
  have hfull : getFromCache c now (getCacheKey siteConfig query page) =
      (none, (getFromCache c now (getCacheKey siteConfig query page)).2) := by
    rw [← hmiss]
  have hc2 := getFromCache_miss_inv hfull
  have hdel : (getFromCache c now (getCacheKey siteConfig query page)).2
      (getCacheKey siteConfig query page) = none := by
    rw [hc2]
    exact cacheDelete_self
  refine ⟨fun msg => ?_, fun msg => ?_, fun env hempty => ?_⟩
  · rw [search_navError hfull]
    exact ⟨rfl, rfl, rfl, hdel⟩
  · rw [search_evalError hfull]
    exact ⟨rfl, rfl, rfl, hdel⟩
  · rw [search_noCards hfull hempty]
    exact ⟨rfl, rfl, rfl, hdel⟩

/-- C7 witness: a concrete evaluation failure is wrapped, the page is
closed, and the failed request's key maps to nothing afterwards. -/
theorem C7_amended_witness :
    (search acmeConfig "drill" 1 cacheTimeout "t1"
      (PageOutcome.evalError "Evaluation failed") primedCache).outcome
      = Except.error (scrapeFailMsg "Acme" "Evaluation failed") ∧
    (search acmeConfig "drill" 1 cacheTimeout "t1"
      (PageOutcome.evalError "Evaluation failed") primedCache).pageClosed
      = true ∧
    (search acmeConfig "drill" 1 cacheTimeout "t1"
      (PageOutcome.evalError "Evaluation failed") primedCache).cache
      (getCacheKey acmeConfig "drill" 1) = none := by
  have h := (C7_failure_isolation_amended acmeConfig "drill" 1 cacheTimeout
    "t1" primedCache (by decide)).2.1 "Evaluation failed"
  exact ⟨h.1, h.2.1, h.2.2.2⟩
